import Mathlib

/-!
Verification development for `brkga_mp_ipr/types.py` of the
`brkga_mp_ipr_python` repository.

The file embeds, in order:
- a small model of the Python exception classes that the enumeration
  machinery can raise (`PyErr`), together with the Python exception
  hierarchy fact that `ValueError` is not a subclass of `LookupError`;
- ASCII case mapping, modelling `str.upper()` as the source applies it to
  the (all-ASCII) enumeration member names;
- the `ParsingEnum._missing_` lookup (types.py lines 36-45) and the
  CPython `Enum.__call__` resolution protocol it plugs into: a member
  passed in is returned unchanged, an integer is first looked up by value,
  and a failed `_missing_` (returning `None`) makes CPython raise
  `ValueError`;
- the enumerations `Sense`, `BiasFunction`, `PathRelinkingType`,
  `PathRelinkingSelection`, `ShakingType` and the `Flag` type
  `PathRelinkingResult` with the exact member values of the source;
- the records `BrkgaParams` and `ExternalControlParams` with their
  constructor call protocols (positional and keyword argument binding).
-/

/-- Model of the Python exception values this subsystem can surface.
CPython raises `ValueError` when an enum lookup (including `_missing_`)
fails, and `TypeError` when a call binds arguments that do not fit the
parameter list. `KeyError` and `IndexError` are the `LookupError`
subclasses; they are included so that the `LookupError`-kind predicate is
not vacuous. -/
inductive PyErr where
  | valueError (msg : String)
  | typeError (msg : String)
  | keyError (msg : String)
  | indexError (msg : String)
deriving DecidableEq

/-- In the Python exception hierarchy, `LookupError` is the base class of
exactly `KeyError` and `IndexError`; `ValueError` and `TypeError` are
siblings of `LookupError`, not subclasses. -/
def PyErr.isLookupErrorKind : PyErr → Bool
  | .keyError _ => true
  | .indexError _ => true
  | .valueError _ => false
  | .typeError _ => false

/-- ASCII upper-casing of one character, as Python `str.upper()` acts on
ASCII input (the enumeration names in the source are all ASCII). -/
def pyUpperChar (c : Char) : Char :=
  if 97 ≤ c.toNat ∧ c.toNat ≤ 122 then Char.ofNat (c.toNat - 32) else c

/-- ASCII lower-casing of one character, as Python `str.lower()` acts on
ASCII input. -/
def pyLowerChar (c : Char) : Char :=
  if 65 ≤ c.toNat ∧ c.toNat ≤ 90 then Char.ofNat (c.toNat + 32) else c

/-- Python `str.upper()` on an ASCII string. -/
def pyUpper (s : String) : String :=
  String.mk (s.data.map pyUpperChar)

/-- A token handed to an enumeration constructor call `EnumType(token)`:
either an existing member, an integer, or a string. -/
inductive PyTok (α : Type) where
  | member (m : α)
  | intLit (v : Int)
  | strLit (s : String)

/-- The data of one concrete enumeration deriving from `ParsingEnum`:
its members in declaration order, their names, their integer values, and
the class name used in error messages. -/
structure EnumSpec (α : Type) where
  members : List α
  name : α → String
  value : α → Int
  clsName : String

/-- The `ParsingEnum._missing_` classmethod (types.py lines 36-45): walk
the members in declaration order and return the first whose name matches
the token case-insensitively; fall off the end (Python returns `None`)
when no name matches. -/
def enumMissing {α : Type} (E : EnumSpec α) (nameStr : String) : Option α :=
  E.members.find? (fun member => pyUpper (E.name member) == pyUpper nameStr)

/-- The CPython `Enum.__call__` resolution protocol, specialised to an
enumeration whose `_missing_` is `ParsingEnum._missing_`:
- a member of the class is returned unchanged;
- an integer is first looked up among the member values; on a miss,
  `_missing_` is tried on `str(value)` and a `None` result raises
  `ValueError` (CPython formats the message with `repr` quoting, which
  the model omits);
- a string never equals an integer member value in Python, so the value
  lookup is skipped and `_missing_` decides, again raising `ValueError`
  when it returns `None`. -/
def resolveTok {α : Type} (E : EnumSpec α) : PyTok α → Except PyErr α
  | .member m => Except.ok m
  | .intLit v =>
    match E.members.find? (fun member => E.value member == v) with
    | some m => Except.ok m
    | none =>
      match enumMissing E (toString v) with
      | some m => Except.ok m
      | none =>
        Except.error (PyErr.valueError (toString v ++ " is not a valid " ++ E.clsName))
  | .strLit s =>
    match enumMissing E s with
    | some m => Except.ok m
    | none =>
      Except.error (PyErr.valueError (s ++ " is not a valid " ++ E.clsName))

/-- The `ParsingEnum.__str__` method (types.py lines 47-51): writing a
member out produces just its name. -/
def enumStr {α : Type} (E : EnumSpec α) (m : α) : String :=
  E.name m

/-- Sense enumeration (types.py lines 55-62). -/
inductive Sense where
  | MINIMIZE
  | MAXIMIZE
deriving DecidableEq

def Sense.name : Sense → String
  | .MINIMIZE => "MINIMIZE"
  | .MAXIMIZE => "MAXIMIZE"

def Sense.value : Sense → Int
  | .MINIMIZE => 0
  | .MAXIMIZE => 1

def senseSpec : EnumSpec Sense :=
  ⟨[.MINIMIZE, .MAXIMIZE], Sense.name, Sense.value, "Sense"⟩

/-- BiasFunction enumeration (types.py lines 66-92). -/
inductive BiasFunction where
  | CONSTANT
  | CUBIC
  | EXPONENTIAL
  | LINEAR
  | LOGINVERSE
  | QUADRATIC
  | CUSTOM
deriving DecidableEq

def BiasFunction.name : BiasFunction → String
  | .CONSTANT => "CONSTANT"
  | .CUBIC => "CUBIC"
  | .EXPONENTIAL => "EXPONENTIAL"
  | .LINEAR => "LINEAR"
  | .LOGINVERSE => "LOGINVERSE"
  | .QUADRATIC => "QUADRATIC"
  | .CUSTOM => "CUSTOM"

def BiasFunction.value : BiasFunction → Int
  | .CONSTANT => 0
  | .CUBIC => 1
  | .EXPONENTIAL => 2
  | .LINEAR => 3
  | .LOGINVERSE => 4
  | .QUADRATIC => 5
  | .CUSTOM => 6

def biasFunctionSpec : EnumSpec BiasFunction :=
  ⟨[.CONSTANT, .CUBIC, .EXPONENTIAL, .LINEAR, .LOGINVERSE, .QUADRATIC, .CUSTOM],
   BiasFunction.name, BiasFunction.value, "BiasFunction"⟩

/-- PathRelinkingType enumeration (types.py lines 96-107). -/
inductive PathRelinkingType where
  | DIRECT
  | PERMUTATION
deriving DecidableEq

def PathRelinkingType.name : PathRelinkingType → String
  | .DIRECT => "DIRECT"
  | .PERMUTATION => "PERMUTATION"

def PathRelinkingType.value : PathRelinkingType → Int
  | .DIRECT => 0
  | .PERMUTATION => 1

def pathRelinkingTypeSpec : EnumSpec PathRelinkingType :=
  ⟨[.DIRECT, .PERMUTATION], PathRelinkingType.name, PathRelinkingType.value,
   "PathRelinkingType"⟩

/-- PathRelinkingSelection enumeration (types.py lines 111-122). -/
inductive PathRelinkingSelection where
  | BESTSOLUTION
  | RANDOMELITE
deriving DecidableEq

def PathRelinkingSelection.name : PathRelinkingSelection → String
  | .BESTSOLUTION => "BESTSOLUTION"
  | .RANDOMELITE => "RANDOMELITE"

def PathRelinkingSelection.value : PathRelinkingSelection → Int
  | .BESTSOLUTION => 0
  | .RANDOMELITE => 1

def pathRelinkingSelectionSpec : EnumSpec PathRelinkingSelection :=
  ⟨[.BESTSOLUTION, .RANDOMELITE], PathRelinkingSelection.name,
   PathRelinkingSelection.value, "PathRelinkingSelection"⟩

/-- ShakingType enumeration (types.py lines 149-165). -/
inductive ShakingType where
  | CHANGE
  | SWAP
deriving DecidableEq

def ShakingType.name : ShakingType → String
  | .CHANGE => "CHANGE"
  | .SWAP => "SWAP"

def ShakingType.value : ShakingType → Int
  | .CHANGE => 0
  | .SWAP => 1

def shakingTypeSpec : EnumSpec ShakingType :=
  ⟨[.CHANGE, .SWAP], ShakingType.name, ShakingType.value, "ShakingType"⟩

/-- PathRelinkingResult flag type (types.py lines 126-145). It derives
from `Flag`, not from `ParsingEnum`, so it takes no part in the string
resolution protocol; its operation of interest is bitwise OR. -/
inductive PathRelinkingResult where
  | TOO_HOMOGENEOUS
  | NO_IMPROVEMENT
  | ELITE_IMPROVEMENT
  | BEST_IMPROVEMENT
deriving DecidableEq

/-- Member bit patterns exactly as declared in the source
(types.py lines 142-145). -/
def PathRelinkingResult.value : PathRelinkingResult → Nat
  | .TOO_HOMOGENEOUS => 0
  | .NO_IMPROVEMENT => 1
  | .ELITE_IMPROVEMENT => 3
  | .BEST_IMPROVEMENT => 7

/-- Members in declaration order. -/
def PathRelinkingResult.members : List PathRelinkingResult :=
  [.TOO_HOMOGENEOUS, .NO_IMPROVEMENT, .ELITE_IMPROVEMENT, .BEST_IMPROVEMENT]

/-- Lookup of a flag member by its bit pattern, as the Python `Flag`
machinery performs after an OR. -/
def PathRelinkingResult.fromValue (v : Nat) : Option PathRelinkingResult :=
  PathRelinkingResult.members.find? (fun m => m.value == v)

/-- Python `Flag.__or__`, the composition the tests exercise as
`PRR.X | PRR.Y`: OR the bit patterns and look the result up among the
declared members (for these four values the result is always one of
them, so the lookup never fails). -/
def PathRelinkingResult.combine (a b : PathRelinkingResult) :
    Option PathRelinkingResult :=
  PathRelinkingResult.fromValue (a.value ||| b.value)

/-- Position of a member in the outcome order
TOO_HOMOGENEOUS < NO_IMPROVEMENT < ELITE_IMPROVEMENT < BEST_IMPROVEMENT. -/
def PathRelinkingResult.rank : PathRelinkingResult → Nat
  | .TOO_HOMOGENEOUS => 0
  | .NO_IMPROVEMENT => 1
  | .ELITE_IMPROVEMENT => 2
  | .BEST_IMPROVEMENT => 3

/-- Maximum of two members under the outcome order. -/
def PathRelinkingResult.stronger (a b : PathRelinkingResult) :
    PathRelinkingResult :=
  if a.rank ≤ b.rank then b else a

/-- The BrkgaParams record (types.py lines 171-230). Python `float`
fields carry only the literal default `0.0` in this subsystem, so they
are embedded as rationals. -/
structure BrkgaParams where
  population_size : Int
  elite_percentage : Rat
  mutants_percentage : Rat
  num_elite_parents : Int
  total_parents : Int
  bias_type : BiasFunction
  num_independent_populations : Int
  pr_number_pairs : Int
  pr_minimum_distance : Rat
  pr_type : PathRelinkingType
  pr_selection : PathRelinkingSelection
  alpha_block_size : Rat
  pr_percentage : Rat
deriving DecidableEq

/-- The body of `BrkgaParams.__init__` (types.py lines 214-230): the
record produced by `BrkgaParams()`. -/
def BrkgaParams.default : BrkgaParams :=
  { population_size := 0
    elite_percentage := 0
    mutants_percentage := 0
    num_elite_parents := 0
    total_parents := 0
    bias_type := BiasFunction.CONSTANT
    num_independent_populations := 0
    pr_number_pairs := 0
    pr_minimum_distance := 0
    pr_type := PathRelinkingType.DIRECT
    pr_selection := PathRelinkingSelection.BESTSOLUTION
    alpha_block_size := 0
    pr_percentage := 0 }

/-- Calling `BrkgaParams(...)`: the source `__init__` declares no
parameter besides `self` (types.py line 214), so Python raises
`TypeError` as soon as any positional argument or any keyword argument
is supplied. Only the argument count and the keyword names matter, since
no supplied value could ever be bound. -/
def brkgaParamsCall (nArgs : Nat) (kwargNames : List String) :
    Except PyErr BrkgaParams :=
  if nArgs ≠ 0 then
    Except.error (PyErr.typeError "takes 1 positional argument but more were given")
  else if kwargNames ≠ [] then
    Except.error (PyErr.typeError "got an unexpected keyword argument")
  else
    Except.ok BrkgaParams.default

/-- The ExternalControlParams record (types.py lines 234-261). The
middle field is spelled `num_exchange_indivuduals` in the source, and
that spelling is the keyword Python binds. -/
structure ExternalControlParams where
  exchange_interval : Int
  num_exchange_indivuduals : Int
  reset_interval : Int
deriving DecidableEq

/-- The parameter list of `ExternalControlParams.__init__`
(types.py lines 240-242), in positional order, each defaulting to 0. -/
def ExternalControlParams.paramNames : List String :=
  ["exchange_interval", "num_exchange_indivuduals", "reset_interval"]

/-- Value bound to a keyword parameter: the supplied keyword argument if
present, the default 0 otherwise. -/
def kwValue (kwargs : List (String × Int)) (nm : String) : Int :=
  match kwargs.find? (fun kv => kv.fst == nm) with
  | some kv => kv.snd
  | none => 0

/-- Value bound to the parameter at position `i` named `nm`: the
positional argument if one was supplied, otherwise the keyword argument
or the default. -/
def posOr (args : List Int) (i : Nat) (kwargs : List (String × Int))
    (nm : String) : Int :=
  match args[i]? with
  | some v => v
  | none => kwValue kwargs nm

/-- Calling `ExternalControlParams(*args, **kwargs)`: CPython argument
binding against the parameter list of types.py lines 240-242. Too many
positional arguments, an unknown keyword, or a parameter supplied both
positionally and by keyword raise `TypeError`; otherwise each parameter
takes its positional value, else its keyword value, else its default 0. -/
def externalControlParamsCall (args : List Int)
    (kwargs : List (String × Int)) : Except PyErr ExternalControlParams :=
  if args.length > 3 then
    Except.error (PyErr.typeError "takes from 1 to 4 positional arguments but more were given")
  else if kwargs.any (fun kv => !(ExternalControlParams.paramNames.contains kv.fst)) then
    Except.error (PyErr.typeError "got an unexpected keyword argument")
  else if (ExternalControlParams.paramNames.take args.length).any
      (fun nm => kwargs.any (fun kv => kv.fst == nm)) then
    Except.error (PyErr.typeError "got multiple values for argument")
  else
    Except.ok
      { exchange_interval := posOr args 0 kwargs "exchange_interval"
        num_exchange_indivuduals := posOr args 1 kwargs "num_exchange_indivuduals"
        reset_interval := posOr args 2 kwargs "reset_interval" }

/-- One token is a per-character casing variant of another: each of its
characters is either the upper-cased or the lower-cased form of the
corresponding character of the other (so upper, lower and mixed case
renderings of a name are all covered). -/
def isCaseVariant : List Char → List Char → Bool
  | [], [] => true
  | a :: t, b :: n =>
    (a == pyUpperChar b || a == pyLowerChar b) && isCaseVariant t n
  | _, _ => false

theorem toNat_charOfNat_of_lt (n : Nat) (h : n < 55296) :
    (Char.ofNat n).toNat = n := by
  rw [Char.ofNat, dif_pos (Or.inl h)]
  rfl

theorem pyUpperChar_idem (c : Char) :
    pyUpperChar (pyUpperChar c) = pyUpperChar c := by
  by_cases h : 97 ≤ c.toNat ∧ c.toNat ≤ 122
  · have ht : (Char.ofNat (c.toNat - 32)).toNat = c.toNat - 32 :=
      toNat_charOfNat_of_lt _ (by omega)
    simp only [pyUpperChar, if_pos h, ht]
    rw [if_neg (by omega)]
  · simp only [pyUpperChar, if_neg h]

theorem pyUpperChar_pyLowerChar (c : Char) :
    pyUpperChar (pyLowerChar c) = pyUpperChar c := by
  by_cases h : 65 ≤ c.toNat ∧ c.toNat ≤ 90
  · have ht : (Char.ofNat (c.toNat + 32)).toNat = c.toNat + 32 :=
      toNat_charOfNat_of_lt _ (by omega)
    have harith : c.toNat + 32 - 32 = c.toNat := by omega
    simp only [pyLowerChar, if_pos h, pyUpperChar, ht]
    rw [if_pos (by omega), if_neg (by omega), harith, Char.ofNat_toNat]
  · simp only [pyLowerChar, if_neg h]

theorem map_pyUpperChar_of_caseVariant (t n : List Char)
    (h : isCaseVariant t n = true) :
    t.map pyUpperChar = n.map pyUpperChar := by
  induction t generalizing n with
  | nil =>
    cases n with
    | nil => rfl
    | cons b m => simp [isCaseVariant] at h
  | cons a t ih =>
    cases n with
    | nil => simp [isCaseVariant] at h
    | cons b m =>
      simp only [isCaseVariant, Bool.and_eq_true, Bool.or_eq_true,
        beq_iff_eq] at h
      obtain ⟨hab, hrest⟩ := h
      simp only [List.map_cons, ih m hrest]
      rcases hab with hab | hab
      · rw [hab, pyUpperChar_idem]
      · rw [hab, pyUpperChar_pyLowerChar]

theorem pyUpper_eq_of_caseVariant (t n : String)
    (h : isCaseVariant t.data n.data = true) :
    pyUpper t = pyUpper n := by
  unfold pyUpper
  rw [map_pyUpperChar_of_caseVariant t.data n.data h]

theorem enumMissing_congr {α : Type} (E : EnumSpec α) (t u : String)
    (h : pyUpper t = pyUpper u) : enumMissing E t = enumMissing E u := by
  unfold enumMissing
  rw [h]

theorem resolveStr_of_enumMissing_some {α : Type} (E : EnumSpec α)
    (t : String) (m : α) (h : enumMissing E t = some m) :
    resolveTok E (PyTok.strLit t) = Except.ok m := by
  simp only [resolveTok, h]

theorem resolveStr_of_enumMissing_none {α : Type} (E : EnumSpec α)
    (t : String) (h : enumMissing E t = none) :
    resolveTok E (PyTok.strLit t) =
      Except.error (PyErr.valueError (t ++ " is not a valid " ++ E.clsName)) := by
  simp only [resolveTok, h]

theorem enumMissing_eq_none {α : Type} (E : EnumSpec α) (t : String)
    (h : ∀ m ∈ E.members, pyUpper (E.name m) ≠ pyUpper t) :
    enumMissing E t = none := by
  unfold enumMissing
  rw [List.find?_eq_none]
  intro m hm
  simp only [beq_iff_eq]
  exact h m hm

theorem resolve_unmatched {α : Type} (E : EnumSpec α) (t : String)
    (h : ∀ m ∈ E.members, pyUpper (E.name m) ≠ pyUpper t) :
    resolveTok E (PyTok.strLit t) =
      Except.error (PyErr.valueError (t ++ " is not a valid " ++ E.clsName))
    ∧ PyErr.isLookupErrorKind
        (PyErr.valueError (t ++ " is not a valid " ++ E.clsName)) = false :=
  ⟨resolveStr_of_enumMissing_none E t (enumMissing_eq_none E t h), rfl⟩

theorem resolve_caseVariant {α : Type} (E : EnumSpec α) (m : α)
    (t : String) (hm : enumMissing E (E.name m) = some m)
    (h : isCaseVariant t.data (E.name m).data = true) :
    resolveTok E (PyTok.strLit t) =
      resolveTok E (PyTok.strLit (E.name m)) := by
  have hup := pyUpper_eq_of_caseVariant t (E.name m) h
  have h1 : enumMissing E t = some m :=
    (enumMissing_congr E t (E.name m) hup).trans hm
  rw [resolveStr_of_enumMissing_some E t m h1,
    resolveStr_of_enumMissing_some E (E.name m) m hm]

/-- C1 counterexample: resolving the unmatched token "not-a-real-name"
against `Sense` fails with a `ValueError`, and `ValueError` is not a
`LookupError`-kind exception, contradicting the claim that the failure
is `LookupError`-kind. -/
theorem claim_C1_counterexample :
    resolveTok senseSpec (PyTok.strLit "not-a-real-name")
      = Except.error (PyErr.valueError "not-a-real-name is not a valid Sense")
    ∧ PyErr.isLookupErrorKind
        (PyErr.valueError "not-a-real-name is not a valid Sense") = false :=
  ⟨rfl, rfl⟩

/-- C1 amended: for every strategy enumeration type and every token
string matching no member name case-insensitively, resolution fails with
a `ValueError` (not a `LookupError`-kind error) identifying the token and
the enumeration type, and the error propagates to the caller rather than
being swallowed or returning a valid variant. -/
theorem claim_C1_amended :
    (∀ t : String,
      (∀ m ∈ senseSpec.members, pyUpper (senseSpec.name m) ≠ pyUpper t) →
      resolveTok senseSpec (PyTok.strLit t)
        = Except.error
            (PyErr.valueError (t ++ " is not a valid " ++ senseSpec.clsName))
      ∧ PyErr.isLookupErrorKind
          (PyErr.valueError (t ++ " is not a valid " ++ senseSpec.clsName))
        = false)
    ∧ (∀ t : String,
      (∀ m ∈ biasFunctionSpec.members,
        pyUpper (biasFunctionSpec.name m) ≠ pyUpper t) →
      resolveTok biasFunctionSpec (PyTok.strLit t)
        = Except.error
            (PyErr.valueError (t ++ " is not a valid " ++ biasFunctionSpec.clsName))
      ∧ PyErr.isLookupErrorKind
          (PyErr.valueError (t ++ " is not a valid " ++ biasFunctionSpec.clsName))
        = false)
    ∧ (∀ t : String,
      (∀ m ∈ pathRelinkingTypeSpec.members,
        pyUpper (pathRelinkingTypeSpec.name m) ≠ pyUpper t) →
      resolveTok pathRelinkingTypeSpec (PyTok.strLit t)
        = Except.error
            (PyErr.valueError (t ++ " is not a valid " ++ pathRelinkingTypeSpec.clsName))
      ∧ PyErr.isLookupErrorKind
          (PyErr.valueError (t ++ " is not a valid " ++ pathRelinkingTypeSpec.clsName))
        = false)
    ∧ (∀ t : String,
      (∀ m ∈ pathRelinkingSelectionSpec.members,
        pyUpper (pathRelinkingSelectionSpec.name m) ≠ pyUpper t) →
      resolveTok pathRelinkingSelectionSpec (PyTok.strLit t)
        = Except.error
            (PyErr.valueError (t ++ " is not a valid " ++ pathRelinkingSelectionSpec.clsName))
      ∧ PyErr.isLookupErrorKind
          (PyErr.valueError (t ++ " is not a valid " ++ pathRelinkingSelectionSpec.clsName))
        = false)
    ∧ (∀ t : String,
      (∀ m ∈ shakingTypeSpec.members,
        pyUpper (shakingTypeSpec.name m) ≠ pyUpper t) →
      resolveTok shakingTypeSpec (PyTok.strLit t)
        = Except.error
            (PyErr.valueError (t ++ " is not a valid " ++ shakingTypeSpec.clsName))
      ∧ PyErr.isLookupErrorKind
          (PyErr.valueError (t ++ " is not a valid " ++ shakingTypeSpec.clsName))
        = false) :=
  ⟨fun t h => resolve_unmatched senseSpec t h,
   fun t h => resolve_unmatched biasFunctionSpec t h,
   fun t h => resolve_unmatched pathRelinkingTypeSpec t h,
   fun t h => resolve_unmatched pathRelinkingSelectionSpec t h,
   fun t h => resolve_unmatched shakingTypeSpec t h⟩

/-- C1 witness: the amended theorem applied to `Sense` at the concrete
token "not-a-real-name". -/
theorem claim_C1_witness :
    resolveTok senseSpec (PyTok.strLit "not-a-real-name")
      = Except.error
          (PyErr.valueError
            ("not-a-real-name" ++ " is not a valid " ++ senseSpec.clsName))
    ∧ PyErr.isLookupErrorKind
        (PyErr.valueError
          ("not-a-real-name" ++ " is not a valid " ++ senseSpec.clsName))
      = false :=
  claim_C1_amended.1 "not-a-real-name" (by decide)

/-- C2: for all 16 ordered pairs of `PathRelinkingResult` values, the
bitwise OR composition equals the maximum of the two operands under the
order TOO_HOMOGENEOUS < NO_IMPROVEMENT < ELITE_IMPROVEMENT <
BEST_IMPROVEMENT. -/
theorem claim_C2 :
    ∀ a b : PathRelinkingResult,
      PathRelinkingResult.combine a b
        = some (PathRelinkingResult.stronger a b) := by
  intro a b
  cases a <;> cases b <;> rfl

/-- C3 counterexample: the keyword call spelled with
`num_exchange_individuals` (as the claim writes it) raises `TypeError`,
because the source parameter is spelled `num_exchange_indivuduals`; the
call does not yield a record at all. -/
theorem claim_C3_counterexample :
    externalControlParamsCall []
      [("exchange_interval", 30), ("num_exchange_individuals", 10),
       ("reset_interval", 20)]
      = Except.error (PyErr.typeError "got an unexpected keyword argument") :=
  rfl

/-- C3 amended: positional construction with (10, 20, 30) yields fields
(10, 20, 30), and keyword construction with exchange_interval=30,
num_exchange_indivuduals=10 (the spelling of the source parameter),
reset_interval=20 yields fields (30, 10, 20); positional and named
construction agree field-for-field. -/
theorem claim_C3_amended :
    externalControlParamsCall [10, 20, 30] [] = Except.ok ⟨10, 20, 30⟩
    ∧ externalControlParamsCall []
        [("exchange_interval", 30), ("num_exchange_indivuduals", 10),
         ("reset_interval", 20)]
        = Except.ok ⟨30, 10, 20⟩ :=
  ⟨rfl, rfl⟩

/-- C4 counterexample: `BrkgaParams` rejects any positional argument and
any keyword argument with `TypeError`, so it cannot be constructed with
positional or named initial values for its fields, contradicting the
claim that both records support such construction. -/
theorem claim_C4_counterexample :
    brkgaParamsCall 1 []
      = Except.error
          (PyErr.typeError "takes 1 positional argument but more were given")
    ∧ brkgaParamsCall 0 ["population_size"]
      = Except.error (PyErr.typeError "got an unexpected keyword argument") :=
  ⟨rfl, rfl⟩

/-- C4 amended: `ExternalControlParams` can be constructed with
positional as well as named initial values for every one of its fields,
any unspecified field taking its default 0; `BrkgaParams` supports only
zero-argument construction, every field taking its documented
zero/sentinel default. -/
theorem claim_C4_amended :
    brkgaParamsCall 0 [] = Except.ok BrkgaParams.default
    ∧ externalControlParamsCall [] [] = Except.ok ⟨0, 0, 0⟩
    ∧ externalControlParamsCall [7] [] = Except.ok ⟨7, 0, 0⟩
    ∧ externalControlParamsCall [7, 8] [] = Except.ok ⟨7, 8, 0⟩
    ∧ externalControlParamsCall [7, 8, 9] [] = Except.ok ⟨7, 8, 9⟩
    ∧ externalControlParamsCall [] [("exchange_interval", 7)]
        = Except.ok ⟨7, 0, 0⟩
    ∧ externalControlParamsCall [] [("num_exchange_indivuduals", 7)]
        = Except.ok ⟨0, 7, 0⟩
    ∧ externalControlParamsCall [] [("reset_interval", 7)]
        = Except.ok ⟨0, 0, 7⟩
    ∧ externalControlParamsCall [1] [("reset_interval", 9)]
        = Except.ok ⟨1, 0, 9⟩ :=
  ⟨rfl, rfl, rfl, rfl, rfl, rfl, rfl, rfl, rfl⟩

/-- C5: for every strategy enumeration type, every member, and every
casing variant (upper, lower or mixed case) of the member name,
resolving the variant string returns the same result as resolving the
canonical name. -/
theorem claim_C5 :
    (∀ (m : Sense) (t : String),
      isCaseVariant t.data (senseSpec.name m).data = true →
      resolveTok senseSpec (PyTok.strLit t)
        = resolveTok senseSpec (PyTok.strLit (senseSpec.name m)))
    ∧ (∀ (m : BiasFunction) (t : String),
      isCaseVariant t.data (biasFunctionSpec.name m).data = true →
      resolveTok biasFunctionSpec (PyTok.strLit t)
        = resolveTok biasFunctionSpec (PyTok.strLit (biasFunctionSpec.name m)))
    ∧ (∀ (m : PathRelinkingType) (t : String),
      isCaseVariant t.data (pathRelinkingTypeSpec.name m).data = true →
      resolveTok pathRelinkingTypeSpec (PyTok.strLit t)
        = resolveTok pathRelinkingTypeSpec
            (PyTok.strLit (pathRelinkingTypeSpec.name m)))
    ∧ (∀ (m : PathRelinkingSelection) (t : String),
      isCaseVariant t.data (pathRelinkingSelectionSpec.name m).data = true →
      resolveTok pathRelinkingSelectionSpec (PyTok.strLit t)
        = resolveTok pathRelinkingSelectionSpec
            (PyTok.strLit (pathRelinkingSelectionSpec.name m)))
    ∧ (∀ (m : ShakingType) (t : String),
      isCaseVariant t.data (shakingTypeSpec.name m).data = true →
      resolveTok shakingTypeSpec (PyTok.strLit t)
        = resolveTok shakingTypeSpec (PyTok.strLit (shakingTypeSpec.name m))) := by
  refine ⟨?_, ?_, ?_, ?_, ?_⟩ <;> intro m t h <;>
    exact resolve_caseVariant _ m t (by cases m <;> decide) h

/-- C5 witness: "linear" and "Linear" both resolve to the same
`BiasFunction` variant as the canonical name "LINEAR". -/
theorem claim_C5_witness :
    resolveTok biasFunctionSpec (PyTok.strLit "linear")
      = resolveTok biasFunctionSpec
          (PyTok.strLit (biasFunctionSpec.name BiasFunction.LINEAR))
    ∧ resolveTok biasFunctionSpec (PyTok.strLit "Linear")
      = resolveTok biasFunctionSpec
          (PyTok.strLit (biasFunctionSpec.name BiasFunction.LINEAR)) :=
  ⟨claim_C5.2.1 BiasFunction.LINEAR "linear" (by decide),
   claim_C5.2.1 BiasFunction.LINEAR "Linear" (by decide)⟩

/-- C6: the four `PathRelinkingResult` constants carry exactly the bit
patterns 0, 1, 3 and 7, and each successive bit pattern is a superset of
the previous one (OR with the next level gives the next level). -/
theorem claim_C6 :
    PathRelinkingResult.value .TOO_HOMOGENEOUS = 0
    ∧ PathRelinkingResult.value .NO_IMPROVEMENT = 1
    ∧ PathRelinkingResult.value .ELITE_IMPROVEMENT = 3
    ∧ PathRelinkingResult.value .BEST_IMPROVEMENT = 7
    ∧ (PathRelinkingResult.value .TOO_HOMOGENEOUS
        ||| PathRelinkingResult.value .NO_IMPROVEMENT)
      = PathRelinkingResult.value .NO_IMPROVEMENT
    ∧ (PathRelinkingResult.value .NO_IMPROVEMENT
        ||| PathRelinkingResult.value .ELITE_IMPROVEMENT)
      = PathRelinkingResult.value .ELITE_IMPROVEMENT
    ∧ (PathRelinkingResult.value .ELITE_IMPROVEMENT
        ||| PathRelinkingResult.value .BEST_IMPROVEMENT)
      = PathRelinkingResult.value .BEST_IMPROVEMENT := by
  refine ⟨rfl, rfl, rfl, rfl, ?_, ?_, ?_⟩ <;> decide

/-- C7: the default-constructed `BrkgaParams` has every numeric field
equal to 0 or 0.0, bias_type CONSTANT, pr_type DIRECT and pr_selection
BESTSOLUTION. -/
theorem claim_C7 :
    BrkgaParams.default.population_size = 0
    ∧ BrkgaParams.default.elite_percentage = 0
    ∧ BrkgaParams.default.mutants_percentage = 0
    ∧ BrkgaParams.default.num_elite_parents = 0
    ∧ BrkgaParams.default.total_parents = 0
    ∧ BrkgaParams.default.bias_type = BiasFunction.CONSTANT
    ∧ BrkgaParams.default.num_independent_populations = 0
    ∧ BrkgaParams.default.pr_number_pairs = 0
    ∧ BrkgaParams.default.pr_minimum_distance = 0
    ∧ BrkgaParams.default.pr_type = PathRelinkingType.DIRECT
    ∧ BrkgaParams.default.pr_selection = PathRelinkingSelection.BESTSOLUTION
    ∧ BrkgaParams.default.alpha_block_size = 0
    ∧ BrkgaParams.default.pr_percentage = 0 :=
  ⟨rfl, rfl, rfl, rfl, rfl, rfl, rfl, rfl, rfl, rfl, rfl, rfl, rfl⟩

/-- C8: for every strategy enumeration, resolving a member itself
returns it unchanged, and resolving the canonical name string written
out by `__str__` returns the member again — members round-trip through
their canonical name string. -/
theorem claim_C8 :
    (∀ v : Sense,
      resolveTok senseSpec (PyTok.member v) = Except.ok v
      ∧ resolveTok senseSpec (PyTok.strLit (enumStr senseSpec v))
          = Except.ok v)
    ∧ (∀ v : BiasFunction,
      resolveTok biasFunctionSpec (PyTok.member v) = Except.ok v
      ∧ resolveTok biasFunctionSpec (PyTok.strLit (enumStr biasFunctionSpec v))
          = Except.ok v)
    ∧ (∀ v : PathRelinkingType,
      resolveTok pathRelinkingTypeSpec (PyTok.member v) = Except.ok v
      ∧ resolveTok pathRelinkingTypeSpec
          (PyTok.strLit (enumStr pathRelinkingTypeSpec v)) = Except.ok v)
    ∧ (∀ v : PathRelinkingSelection,
      resolveTok pathRelinkingSelectionSpec (PyTok.member v) = Except.ok v
      ∧ resolveTok pathRelinkingSelectionSpec
          (PyTok.strLit (enumStr pathRelinkingSelectionSpec v)) = Except.ok v)
    ∧ (∀ v : ShakingType,
      resolveTok shakingTypeSpec (PyTok.member v) = Except.ok v
      ∧ resolveTok shakingTypeSpec (PyTok.strLit (enumStr shakingTypeSpec v))
          = Except.ok v) := by
  refine ⟨?_, ?_, ?_, ?_, ?_⟩ <;> intro v <;>
    exact ⟨rfl, by cases v <;> rfl⟩

/-- C9: within each of the six enumerations, the member values are
pairwise distinct, so lookup by integer tag is unambiguous. -/
theorem claim_C9 :
    (senseSpec.members.map senseSpec.value).Nodup
    ∧ (biasFunctionSpec.members.map biasFunctionSpec.value).Nodup
    ∧ (pathRelinkingTypeSpec.members.map pathRelinkingTypeSpec.value).Nodup
    ∧ (pathRelinkingSelectionSpec.members.map
        pathRelinkingSelectionSpec.value).Nodup
    ∧ (PathRelinkingResult.members.map PathRelinkingResult.value).Nodup
    ∧ (shakingTypeSpec.members.map shakingTypeSpec.value).Nodup := by
  refine ⟨?_, ?_, ?_, ?_, ?_, ?_⟩ <;> decide

/-- C10: for every strategy enumeration and every member, resolving the
integer tag of that member returns the member (value lookup succeeds
before any name matching is attempted); in particular resolving 3
against `BiasFunction` yields LINEAR. -/
theorem claim_C10 :
    (∀ v : Sense,
      resolveTok senseSpec (PyTok.intLit (senseSpec.value v)) = Except.ok v)
    ∧ (∀ v : BiasFunction,
      resolveTok biasFunctionSpec (PyTok.intLit (biasFunctionSpec.value v))
        = Except.ok v)
    ∧ (∀ v : PathRelinkingType,
      resolveTok pathRelinkingTypeSpec
        (PyTok.intLit (pathRelinkingTypeSpec.value v)) = Except.ok v)
    ∧ (∀ v : PathRelinkingSelection,
      resolveTok pathRelinkingSelectionSpec
        (PyTok.intLit (pathRelinkingSelectionSpec.value v)) = Except.ok v)
    ∧ (∀ v : ShakingType,
      resolveTok shakingTypeSpec (PyTok.intLit (shakingTypeSpec.value v))
        = Except.ok v)
    ∧ resolveTok biasFunctionSpec (PyTok.intLit 3)
        = Except.ok BiasFunction.LINEAR := by
  refine ⟨?_, ?_, ?_, ?_, ?_, rfl⟩ <;> intro v <;> cases v <;> rfl
